import Mathlib

/-!
Verification of the Agent-E browser-manager code.

This file gives a shallow embedding of the two source files
`ae/core/playwright_manager.py` and `ae/core/skills/pause_flow.py`
and proves the stated properties about them.

Conventions of the embedding:
* mutable attributes become fields of explicit state records that every
  operation threads through;
* the asyncio event is a Boolean flag (set / not set);
* calls into the external Playwright library are oracles passed as
  function arguments (for example the `launch_persistent_context` call is a
  function from a user-data directory and a headless flag to either a
  context or an error message);
* a Python exception becomes an `Except` error value or an error component
  of the result.
-/

deriving instance DecidableEq for Except

namespace AgentE

/-! ### String containment (Python `needle in haystack`) -/

/-- Boolean test that the first list of characters occurs at the head of
the second, used to embed Python substring containment. -/
def charsStart : List Char → List Char → Bool
  | [], _ => true
  | _ :: _, [] => false
  | n :: ns, h :: hs => n == h && charsStart ns hs

/-- Boolean test that the first list of characters occurs somewhere inside
the second. -/
def charsContain (needle : List Char) : List Char → Bool
  | [] => needle.isEmpty
  | h :: hs => charsStart needle (h :: hs) || charsContain needle hs

/-- Embedding of the Python expression `needle in hay` on strings. -/
def strContains (needle hay : String) : Bool :=
  charsContain needle.data hay.data

/-! ### The user-response handshake

`receive_user_response` stores the response in the `user_response` mailbox
attribute and sets `user_response_event`; `prompt_user`, once the wait on
the event returns, reads the mailbox, clears the event and resets the
mailbox to the empty string.  The handshake state is the pair of those two
attributes. -/

/-- The two mutable attributes used by the prompt/response handshake:
the `user_response` mailbox and the flag of `user_response_event`. -/
structure HState where
  user_response : String
  user_response_event : Bool
deriving DecidableEq

/-- Embedding of `PlaywrightManager.receive_user_response`: store the
response in the mailbox and set the event. -/
def receive_user_response (response : String) (_s : HState) : HState :=
  { user_response := response, user_response_event := true }

/-- Embedding of the part of `PlaywrightManager.prompt_user` that runs
after `user_response_event.wait()` returns: read the mailbox as the
result, clear the event, reset the mailbox to the empty string, and
return the result. -/
def prompt_user_resume (s : HState) : String × HState :=
  (s.user_response, { user_response := "", user_response_event := false })

/-- The operations of the manager as they act on the handshake state:
a `receive_user_response` call, the completion of a `prompt_user` call,
or any of the other manager operations (none of which touches the
mailbox or the event). -/
inductive HAction where
  | receive (r : String)
  | promptComplete
  | outside
deriving DecidableEq

/-- Effect of each manager operation on the handshake state. -/
def hstep : HAction → HState → HState
  | .receive r, s => receive_user_response r s
  | .promptComplete, s => (prompt_user_resume s).2
  | .outside, s => s

/-! ### The singleton construction

`PlaywrightManager.__new__` stores a single instance in the class
attribute `_instance` and hands it back on every later construction;
`__init__` guards its body with the `__initialized` flag that `__new__`
sets to `False` on the one freshly created instance. -/

/-- The instance attributes set by `PlaywrightManager.__new__` and
`PlaywrightManager.__init__`.  `user_response_event_set` is the flag of
the freshly created `asyncio.Event` and `has_ui_manager` records whether
the `gui_input_mode` branch created a `UIManager`. -/
structure PMInstance where
  initialized : Bool
  browser_type : String
  isheadless : Bool
  user_response_event_set : Bool
  has_ui_manager : Bool
deriving DecidableEq

/-- The attribute values of an instance fresh out of `__new__`, before
`__init__` has run: only `__initialized` has been assigned (to `False`). -/
def pw_blank : PMInstance :=
  { initialized := false, browser_type := "", isheadless := false,
    user_response_event_set := false, has_ui_manager := false }

/-- Embedding of `PlaywrightManager.__init__`: if the instance is already
initialized, return immediately; otherwise set `browser_type`,
`isheadless`, the initialized flag, a fresh (unset) `user_response_event`,
and a `UIManager` when `gui_input_mode` holds. -/
def pw_init (i : PMInstance) (browser_type : String) (headless gui_input_mode : Bool) :
    PMInstance :=
  if i.initialized then i
  else
    { initialized := true, browser_type := browser_type, isheadless := headless,
      user_response_event_set := false, has_ui_manager := gui_input_mode }

/-- Embedding of one construction `PlaywrightManager(browser_type,
headless, gui_input_mode)`: `__new__` returns the stored instance or
creates and stores a blank one, then `__init__` runs on it.  Returns the
new class state, the instance handed back to the caller, and whether the
body of `__init__` past its guard ran. -/
def pw_construct (stored : Option PMInstance) (browser_type : String)
    (headless gui_input_mode : Bool) : Option PMInstance × PMInstance × Bool :=
  let i0 := match stored with
    | some i => i
    | none => pw_blank
  let ran := !i0.initialized
  let i1 := pw_init i0 browser_type headless gui_input_mode
  (some i1, i1, ran)

/-- A sequence of constructions, each with its own arguments.  Returns the
final class state, the list of instances returned to each caller, and the
number of times the body of `__init__` past its guard ran. -/
def pw_constructSeq (stored : Option PMInstance) :
    List (String × Bool × Bool) → Option PMInstance × List PMInstance × Nat
  | [] => (stored, [], 0)
  | (bt, hl, g) :: rest =>
    let r1 := pw_construct stored bt hl g
    let r2 := pw_constructSeq r1.1 rest
    (r2.1, r1.2.1 :: r2.2.1, (if r1.2.2 then 1 else 0) + r2.2.2)

/-- The instance produced by the first construction from an empty class
state. -/
def pw_first (browser_type : String) (headless gui_input_mode : Bool) : PMInstance :=
  pw_init pw_blank browser_type headless gui_input_mode

/-! ### Browser-context creation

`create_browser_context` launches a persistent chromium context in the
configured user-data directory.  On an exception whose message contains
the closed-target text it retries once with a fresh temporary directory;
on an exception whose message contains the missing-chrome text it raises
a `ValueError`; any other exception is re-raised.  A non-chromium
`browser_type` raises a `ValueError` before any launch. -/

/-- A Playwright handle and a browser context are external objects; the
embedding only tracks their identity. -/
abbrev PW := Nat

/-- Identity of a browser context created by the external library. -/
abbrev Ctx := Nat

/-- A single-quote character, used to build the literal messages of the
source without writing the quote in this file. -/
def sq : String := String.singleton (Char.ofNat 39)

/-- The substring tested first in the exception handler of
`create_browser_context`. -/
def closedMsg : String := "Target page, context or browser has been closed"

/-- The substring tested second (note the trailing space, exactly as in
the source). -/
def chromeNotFoundMsg : String :=
  "Chromium distribution " ++ sq ++ "chrome" ++ sq ++ " is not found "

/-- The message of the `ValueError` raised when the chrome channel is
missing. -/
def chromeInstallMsg : String :=
  "Chrome is not installed on this device. Install Google Chrome or install playwright using "
    ++ sq ++ "playwright install chrome" ++ sq
    ++ ". Refer to the readme for more information."

/-- Outcome of `create_browser_context`: a context was stored, a
`ValueError` was raised, or some other exception propagated. -/
inductive CBCOutcome where
  | ok (ctx : Ctx)
  | valueError (msg : String)
  | raised (msg : String)
deriving DecidableEq

/-- Embedding of `PlaywrightManager.create_browser_context`.

`launch` is the oracle for `launch_persistent_context`, taking the
user-data directory and the headless flag and returning either a context
or the message of the exception it raises; the other launch arguments are
fixed in the source and identical in both calls, so they are not
modelled.  `pw` is the class attribute `_playwright` (accessing
`.chromium` on `None` raises).  `user_dir` is the configured
`BROWSER_STORAGE_DIR`; `new_user_dir` is the fresh directory that
`tempfile.mkdtemp()` would create.  The second component of the result
lists the launch attempts actually made, each as the directory and
headless flag passed to the oracle. -/
def create_browser_context (pw : Option PW) (browser_type : String) (isheadless : Bool)
    (launch : String → Bool → Except String Ctx) (user_dir new_user_dir : String) :
    CBCOutcome × List (String × Bool) :=
  if browser_type = "chromium" then
    match pw with
    | none => (.raised "AttributeError: NoneType has no attribute chromium", [])
    | some _ =>
      match launch user_dir isheadless with
      | .ok c => (.ok c, [(user_dir, isheadless)])
      | .error e =>
        if strContains closedMsg e then
          match launch new_user_dir isheadless with
          | .ok c => (.ok c, [(user_dir, isheadless), (new_user_dir, isheadless)])
          | .error e2 => (.raised e2, [(user_dir, isheadless), (new_user_dir, isheadless)])
        else if strContains chromeNotFoundMsg e then
          (.valueError chromeInstallMsg, [(user_dir, isheadless)])
        else
          (.raised e, [(user_dir, isheadless)])
  else
    (.valueError ("Unsupported browser type: " ++ browser_type), [])

/-! ### Object lifecycle

The manager state threads the class attributes `_playwright`,
`_browser_context` and the async-initialization flag, together with the
instance attributes `browser_type` and `isheadless` and the observable
effects of handler setup and homepage navigation. -/

/-- The homepage constant `_homepage` of the class. -/
def homepage : String := "https://www.google.com"

/-- The mutable state of the manager relevant to the lifecycle methods. -/
structure MgrState where
  browser_type : String
  isheadless : Bool
  playwright : Option PW
  browser_context : Option Ctx
  asyncInitializeDone : Bool
  handlersSet : Bool
  currentUrl : Option String
deriving DecidableEq

/-- Embedding of `PlaywrightManager.start_playwright`: start and store a
Playwright instance when none is stored yet.  `p` is the instance the
external `playwright().start()` call would produce. -/
def start_playwright (p : PW) (s : MgrState) : MgrState :=
  if s.playwright.isNone then { s with playwright := some p } else s

/-- Embedding of `PlaywrightManager.ensure_browser_context`: create a
browser context when none exists.  The second component is the message of
the exception propagating out of `create_browser_context`, when there is
one; the state component keeps the values the attributes hold at that
point, as in Python, where an escaping exception leaves the assignments
already made in place. -/
def ensure_browser_context (launch : String → Bool → Except String Ctx)
    (user_dir new_user_dir : String) (s : MgrState) : MgrState × Option String :=
  if s.browser_context.isNone then
    match (create_browser_context s.playwright s.browser_type s.isheadless
        launch user_dir new_user_dir).1 with
    | .ok c => ({ s with browser_context := some c }, none)
    | .valueError m => (s, some m)
    | .raised m => (s, some m)
  else (s, none)

/-- Embedding of `PlaywrightManager.setup_handlers`: registers the
overlay-state, user-response and navigation handlers on the context. -/
def setup_handlers (s : MgrState) : MgrState :=
  { s with handlersSet := true }

/-- Embedding of `PlaywrightManager.go_to_homepage`: navigate the current
page to the homepage. -/
def go_to_homepage (s : MgrState) : MgrState :=
  { s with currentUrl := some homepage }

/-- Embedding of `PlaywrightManager.async_initialize`: when not done yet,
start Playwright, ensure the browser context, set up handlers, navigate
to the homepage, and record completion.  An exception escaping from
`ensure_browser_context` propagates and the done flag stays unset. -/
def asyncInitialize (p : PW) (launch : String → Bool → Except String Ctx)
    (user_dir new_user_dir : String) (s : MgrState) : MgrState × Option String :=
  if s.asyncInitializeDone then (s, none)
  else
    let s1 := start_playwright p s
    match ensure_browser_context launch user_dir new_user_dir s1 with
    | (s2, some e) => (s2, some e)
    | (s2, none) =>
      let s3 := go_to_homepage (setup_handlers s2)
      ({ s3 with asyncInitializeDone := true }, none)

/-! ### Current page and current URL -/

/-- A page of the browser context: its identity, whether it is closed,
and its URL. -/
structure PageM where
  id : Nat
  closed : Bool
  url : String
deriving DecidableEq

/-- Embedding of the non-exceptional path of
`PlaywrightManager.get_current_page` over the pages of the context:
filter out closed pages, take the last one when there is one, otherwise
create a new page in the context.  `fresh` is the page the external
`new_page()` call would create; the second component is the context page
list afterwards. -/
def get_current_page (ctxPages : List PageM) (fresh : PageM) : PageM × List PageM :=
  let pages := ctxPages.filter (fun p => !p.closed)
  match pages.getLast? with
  | some page => (page, ctxPages)
  | none => (fresh, ctxPages ++ [fresh])

/-- Embedding of `PlaywrightManager.get_current_url`: obtaining the
current page is fallible (the `fetch` argument stands for the awaited
`get_current_page()` call together with any exception it raises); the
`try` body returns the URL of the page, the handler swallows the
exception, and `None` is returned. -/
def get_current_url (fetch : Except String PageM) : Option String :=
  match fetch with
  | .ok page => some page.url
  | .error _ => none

/-! ### The timed-pause skill

`pause_flow` converts the duration to a float, rejects negative values,
sleeps, and reports completion with singular or plural wording.  Numbers
are embedded as rationals: every int or float value is one, and the only
numeric operations of the source on them (conversion, comparison with 0
and with 1) are exact.  `fmt` stands for Python float formatting inside
the f-string; `sleepExc` is the exception the `asyncio.sleep` call
raises, when it raises one. -/

/-- A Python exception, split into `ValueError` and everything else,
matching the two `except` clauses of the source. -/
inductive PyExc where
  | valueError (msg : String)
  | other (msg : String)
deriving DecidableEq

/-- The two `except` clauses of `pause_flow`: a `ValueError` whose
message contains "negative" reraises the negative-duration message, any
other `ValueError` the invalid-duration message, and any other exception
is wrapped with the while-pausing prefix. -/
def wrapPauseExc : PyExc → PyExc
  | .valueError m =>
    if strContains "negative" m then .valueError "Duration cannot be negative."
    else .valueError "Invalid duration. Please provide a valid number of seconds."
  | .other m => .valueError ("Error while pausing: " ++ m)

/-- Embedding of `pause_flow`.  The result pairs the returned message or
raised exception with the number of seconds passed to `asyncio.sleep`
(`none` when sleep was never called). -/
def pause_flow (fmt : ℚ → String) (sleepExc : Option PyExc) (duration : ℚ) :
    Except PyExc String × Option ℚ :=
  let seconds := duration
  if seconds < 0 then
    (.error (wrapPauseExc (.valueError "Duration cannot be negative.")), none)
  else
    match sleepExc with
    | some e => (.error (wrapPauseExc e), some seconds)
    | none =>
      if seconds = 1 then
        (.ok ("Paused for " ++ fmt seconds ++ " second."), some seconds)
      else
        (.ok ("Paused for " ++ fmt seconds ++ " seconds."), some seconds)

/-! ### Concrete fixtures used to instantiate the theorems -/

/-- A launch oracle that raises the closed-target message on the
directory u and succeeds elsewhere. -/
def launchEx : String → Bool → Except String Ctx :=
  fun d _ => if d = "u" then .error closedMsg else .ok 5

/-- A launch oracle that always succeeds. -/
def launchOk : String → Bool → Except String Ctx :=
  fun _ _ => .ok 5

/-- A fully initialized manager state. -/
def mgrEx : MgrState :=
  { browser_type := "chromium", isheadless := false, playwright := some 1,
    browser_context := some 2, asyncInitializeDone := true, handlersSet := true,
    currentUrl := some homepage }

/-- A concrete page. -/
def pageEx : PageM := { id := 1, closed := false, url := "https://example.org" }

/-- A concrete closed page. -/
def pageClosedEx : PageM := { id := 0, closed := true, url := "https://old.example.org" }

end AgentE

namespace AgentE

/-! ## Helper lemmas -/

/-- A sequence of constructions starting from a class state that already
stores an initialized instance changes nothing: every call returns that
stored instance and the body of the initializer never runs. -/
theorem pw_constructSeq_initialized (i : PMInstance) (h : i.initialized = true) :
    ∀ l : List (String × Bool × Bool),
      pw_constructSeq (some i) l = (some i, List.replicate l.length i, 0)
  | [] => rfl
  | (bt, hl, g) :: rest => by
    simp [pw_constructSeq, pw_construct, pw_init, h,
      pw_constructSeq_initialized i h rest, List.replicate_succ]

/-- Lemma: `start_playwright` leaves every field other than `playwright`
unchanged, and afterwards a Playwright instance is always stored. -/
theorem start_playwright_fields (p : PW) (s : MgrState) :
    (start_playwright p s).playwright.isSome = true ∧
    (start_playwright p s).browser_type = s.browser_type ∧
    (start_playwright p s).isheadless = s.isheadless ∧
    (start_playwright p s).browser_context = s.browser_context ∧
    (start_playwright p s).asyncInitializeDone = s.asyncInitializeDone := by
  cases hp : s.playwright <;> simp [start_playwright, hp]

/-- When a Playwright instance is already stored, `start_playwright` is
the identity. -/
theorem start_playwright_of_isSome (p : PW) (s : MgrState)
    (h : s.playwright.isSome = true) : start_playwright p s = s := by
  cases hp : s.playwright <;> simp [start_playwright, hp] <;> simp [hp] at h

/-- When an exception escapes `ensure_browser_context`, the state is
returned unchanged. -/
theorem ensure_browser_context_error (launch : String → Bool → Except String Ctx)
    (user_dir new_user_dir e : String) (s : MgrState)
    (h : (ensure_browser_context launch user_dir new_user_dir s).2 = some e) :
    (ensure_browser_context launch user_dir new_user_dir s).1 = s := by
  rcases hc : s.browser_context with _ | c
  · rcases ho : (create_browser_context s.playwright s.browser_type s.isheadless
        launch user_dir new_user_dir).1 with c2 | m | m <;>
      simp [ensure_browser_context, hc, ho] at h ⊢
  · simp [ensure_browser_context, hc]

/-- The negative-duration message does contain the tested substring, so
the handler reraises it unchanged. -/
theorem negMsg_contains :
    strContains "negative" "Duration cannot be negative." = true := by decide

/-- The invalid-duration message differs from the negative-duration
message. -/
theorem invalidMsg_ne :
    ("Invalid duration. Please provide a valid number of seconds." : String)
      ≠ "Duration cannot be negative." := by decide

/-- A message carrying the while-pausing prefix never equals the
negative-duration message, whatever the wrapped text. -/
theorem errorWhileMsg_ne (m : String) :
    ("Error while pausing: " ++ m) ≠ "Duration cannot be negative." := by
  intro h
  have h2 : 'E' :: ("rror while pausing: ".data ++ m.data)
      = 'D' :: "uration cannot be negative.".data := by
    calc 'E' :: ("rror while pausing: ".data ++ m.data)
        = ("Error while pausing: " ++ m).data := rfl
      _ = "Duration cannot be negative.".data := by rw [h]
      _ = 'D' :: "uration cannot be negative.".data := rfl
  injection h2 with h3 _
  exact absurd h3 (by decide)

/-- When a browser context already exists, `ensure_browser_context`
returns the state unchanged with no exception. -/
theorem ensure_browser_context_of_isSome (launch : String → Bool → Except String Ctx)
    (user_dir new_user_dir : String) (s : MgrState)
    (h : s.browser_context.isSome = true) :
    ensure_browser_context launch user_dir new_user_dir s = (s, none) := by
  rcases hc : s.browser_context with _ | c
  · rw [hc] at h
    simp at h
  · simp [ensure_browser_context, hc]

/-- Running `ensure_browser_context` on the state a first run left behind
reproduces the first run exactly. -/
theorem ensure_browser_context_idem (launch : String → Bool → Except String Ctx)
    (user_dir new_user_dir : String) (s : MgrState) :
    ensure_browser_context launch user_dir new_user_dir
        (ensure_browser_context launch user_dir new_user_dir s).1
      = ensure_browser_context launch user_dir new_user_dir s := by
  rcases hc : s.browser_context with _ | c
  · rcases ho : (create_browser_context s.playwright s.browser_type s.isheadless
        launch user_dir new_user_dir).1 with c2 | m | m
    · have h1 : ensure_browser_context launch user_dir new_user_dir s
          = ({ s with browser_context := some c2 }, none) := by
        simp [ensure_browser_context, hc, ho]
      rw [h1]
      simp [ensure_browser_context]
    · have h1 : ensure_browser_context launch user_dir new_user_dir s = (s, some m) := by
        simp [ensure_browser_context, hc, ho]
      rw [h1]
      exact h1
    · have h1 : ensure_browser_context launch user_dir new_user_dir s = (s, some m) := by
        simp [ensure_browser_context, hc, ho]
      rw [h1]
      exact h1
  · have h1 : ensure_browser_context launch user_dir new_user_dir s = (s, none) := by
      simp [ensure_browser_context, hc]
    rw [h1]
    exact h1

/-- Running `asyncInitialize` on the state a first run left behind
reproduces the first run exactly: on success the done flag blocks any
rework, and on a propagated exception the rerun repeats the same failing
steps on the unchanged state. -/
theorem asyncInitialize_idem (p : PW) (launch : String → Bool → Except String Ctx)
    (user_dir new_user_dir : String) (s : MgrState) :
    asyncInitialize p launch user_dir new_user_dir
        (asyncInitialize p launch user_dir new_user_dir s).1
      = asyncInitialize p launch user_dir new_user_dir s := by
  by_cases hd : s.asyncInitializeDone
  · simp [asyncInitialize, hd]
  · have hs1done : (start_playwright p s).asyncInitializeDone = false := by
      rw [(start_playwright_fields p s).2.2.2.2]
      simpa using hd
    have hstart : start_playwright p (start_playwright p s) = start_playwright p s :=
      start_playwright_of_isSome p (start_playwright p s) (start_playwright_fields p s).1
    rcases hens : ensure_browser_context launch user_dir new_user_dir
        (start_playwright p s) with ⟨s2, oe⟩
    rcases oe with _ | e
    · have hmain : asyncInitialize p launch user_dir new_user_dir s
          = ({ go_to_homepage (setup_handlers s2) with asyncInitializeDone := true },
             none) := by
        simp [asyncInitialize, hd, hens]
      rw [hmain]
      simp [asyncInitialize, go_to_homepage, setup_handlers]
    · have hs2 : s2 = start_playwright p s := by
        have he2 := ensure_browser_context_error launch user_dir new_user_dir e
          (start_playwright p s) (by rw [hens])
        rw [hens] at he2
        exact he2
      have hmain : asyncInitialize p launch user_dir new_user_dir s = (s2, some e) := by
        simp [asyncInitialize, hd, hens]
      rw [hmain]
      rw [hs2]
      simp [asyncInitialize, hs1done, hstart, hens, hs2]

/-! ## The claims -/

/-- Claim C1: PlaywrightManager is a singleton: in any sequence of
constructions, every call returns the identical instance, the body of the
initializer runs exactly once (on the first construction), and the
browser type, headless flag and event set by the first construction are
kept regardless of the arguments of the later constructions. -/
theorem claim_C1_singleton (bt : String) (hl g : Bool)
    (rest : List (String × Bool × Bool)) :
    pw_constructSeq none ((bt, hl, g) :: rest)
      = (some (pw_first bt hl g),
         List.replicate (rest.length + 1) (pw_first bt hl g), 1) ∧
    (pw_first bt hl g).browser_type = bt ∧
    (pw_first bt hl g).isheadless = hl ∧
    (pw_first bt hl g).user_response_event_set = false ∧
    (pw_first bt hl g).initialized = true := by
  have hinit : (pw_first bt hl g).initialized = true := by
    simp [pw_first, pw_init, pw_blank]
  have hseq := pw_constructSeq_initialized _ hinit rest
  have hcon : pw_construct none bt hl g
      = (some (pw_first bt hl g), pw_first bt hl g, true) := rfl
  refine ⟨?_, ?_, ?_, ?_, hinit⟩
  · simp only [pw_constructSeq, hcon, hseq, List.replicate_succ]
    simp
  all_goals simp [pw_first, pw_init, pw_blank]

/-- Claim C2: the prompt/response handshake is a correct rendezvous: when the
event is not set and `receive_user_response r` is the call that sets it,
the `prompt_user` call that was waiting resumes and returns exactly `r`. -/
theorem claim_C2_rendezvous (s : HState) (r : String)
    (h : s.user_response_event = false) :
    (prompt_user_resume (receive_user_response r s)).1 = r := rfl

/-- Witness for C2 at a concrete state and response. -/
theorem claim_C2_rendezvous_witness :
    (HState.mk "" false).user_response_event = false ∧
    (prompt_user_resume (receive_user_response "yes" (HState.mk "" false))).1 = "yes" :=
  ⟨rfl, claim_C2_rendezvous (HState.mk "" false) "yes" rfl⟩

/-- Claim C4: the lifecycle operations create once and reuse: when the
Playwright instance, the browser context, or the async initialization
already exists (is done), the repeated call leaves the state unchanged
and raises nothing, and each of the three operations run twice equals the
operation run once. -/
theorem claim_C4_idempotent (p : PW) (launch : String → Bool → Except String Ctx)
    (user_dir new_user_dir : String) (s : MgrState) :
    (s.playwright.isSome = true → start_playwright p s = s) ∧
    (s.browser_context.isSome = true →
      ensure_browser_context launch user_dir new_user_dir s = (s, none)) ∧
    (s.asyncInitializeDone = true →
      asyncInitialize p launch user_dir new_user_dir s = (s, none)) ∧
    start_playwright p (start_playwright p s) = start_playwright p s ∧
    ensure_browser_context launch user_dir new_user_dir
        (ensure_browser_context launch user_dir new_user_dir s).1
      = ensure_browser_context launch user_dir new_user_dir s ∧
    asyncInitialize p launch user_dir new_user_dir
        (asyncInitialize p launch user_dir new_user_dir s).1
      = asyncInitialize p launch user_dir new_user_dir s := by
  refine ⟨start_playwright_of_isSome p s,
    ensure_browser_context_of_isSome launch user_dir new_user_dir s, ?_,
    start_playwright_of_isSome p (start_playwright p s) (start_playwright_fields p s).1,
    ensure_browser_context_idem launch user_dir new_user_dir s,
    asyncInitialize_idem p launch user_dir new_user_dir s⟩
  intro hd
  simp [asyncInitialize, hd]

/-- Witness for C4 at a fully initialized manager state. -/
theorem claim_C4_idempotent_witness :
    mgrEx.playwright.isSome = true ∧
    mgrEx.browser_context.isSome = true ∧
    mgrEx.asyncInitializeDone = true ∧
    start_playwright 1 mgrEx = mgrEx ∧
    ensure_browser_context launchOk "u" "t" mgrEx = (mgrEx, none) ∧
    asyncInitialize 1 launchOk "u" "t" mgrEx = (mgrEx, none) :=
  ⟨rfl, rfl, rfl,
   (claim_C4_idempotent 1 launchOk "u" "t" mgrEx).1 rfl,
   (claim_C4_idempotent 1 launchOk "u" "t" mgrEx).2.1 rfl,
   (claim_C4_idempotent 1 launchOk "u" "t" mgrEx).2.2.1 rfl⟩

/-- Claim C5: after every completed `prompt_user` call the event is cleared and
the mailbox reset to the empty string; among the manager operations, only
`receive_user_response` sets the event and only `prompt_user` clears it. -/
theorem claim_C5_wait_set_clear :
    (∀ s : HState, (prompt_user_resume s).2 = HState.mk "" false) ∧
    (∀ (a : HAction) (s : HState), s.user_response_event = false →
      (hstep a s).user_response_event = true → ∃ r, a = HAction.receive r) ∧
    (∀ (a : HAction) (s : HState), s.user_response_event = true →
      (hstep a s).user_response_event = false → a = HAction.promptComplete) := by
  refine ⟨fun s => rfl, ?_, ?_⟩ <;> intro a s h1 h2 <;> cases a <;>
    simp_all [hstep, receive_user_response, prompt_user_resume]

/-- Witness for C5 at concrete actions and states. -/
theorem claim_C5_wait_set_clear_witness :
    (prompt_user_resume (HState.mk "hi" true)).2 = HState.mk "" false ∧
    (∃ r, HAction.receive "ok" = HAction.receive r) ∧
    HAction.promptComplete = HAction.promptComplete :=
  ⟨claim_C5_wait_set_clear.1 (HState.mk "hi" true),
   claim_C5_wait_set_clear.2.1 (HAction.receive "ok") (HState.mk "" false) rfl rfl,
   claim_C5_wait_set_clear.2.2 HAction.promptComplete (HState.mk "x" true) rfl rfl⟩

/-- Claim C6: `get_current_page` returns the last non-closed page of the
context when one exists, leaving the context unchanged, and otherwise
creates a new page in the context and returns it. -/
theorem claim_C6_current_page (ctxPages : List PageM) (fresh : PageM) :
    (ctxPages.filter (fun p => !p.closed) = [] →
      get_current_page ctxPages fresh = (fresh, ctxPages ++ [fresh])) ∧
    (∀ (l : List PageM) (p : PageM),
      ctxPages.filter (fun p => !p.closed) = l ++ [p] →
      get_current_page ctxPages fresh = (p, ctxPages)) := by
  constructor
  · intro h
    simp [get_current_page, h]
  · intro l p h
    simp [get_current_page, h, List.getLast?_concat]

/-- Witness for C6: a context whose only live page is returned, and a
context of closed pages where the fresh page is created. -/
theorem claim_C6_current_page_witness :
    ([pageClosedEx].filter (fun p => !p.closed) = [] ∧
      get_current_page [pageClosedEx] pageEx = (pageEx, [pageClosedEx, pageEx])) ∧
    ([pageClosedEx, pageEx].filter (fun p => !p.closed) = [] ++ [pageEx] ∧
      get_current_page [pageClosedEx, pageEx] pageEx = (pageEx, [pageClosedEx, pageEx])) :=
  ⟨⟨by decide, (claim_C6_current_page [pageClosedEx] pageEx).1 (by decide)⟩,
   ⟨by decide, (claim_C6_current_page [pageClosedEx, pageEx] pageEx).2 [] pageEx (by decide)⟩⟩

/-- Claim C7: for every nonnegative duration, `pause_flow` sleeps for exactly
the converted number of seconds and returns the completion message built
from the formatted seconds, with the singular wording exactly when the
value equals 1. -/
theorem claim_C7_pause_message (fmt : ℚ → String) (d : ℚ) (h : 0 ≤ d) :
    pause_flow fmt none d
      = (.ok ("Paused for " ++ fmt d ++ (if d = 1 then " second." else " seconds.")),
         some d) := by
  unfold pause_flow
  rw [if_neg (not_lt.mpr h)]
  by_cases h1 : d = 1 <;> simp [h1]

/-- Witness for C7 at durations 1 and 3. -/
theorem claim_C7_pause_message_witness :
    ((0 : ℚ) ≤ 1 ∧ pause_flow (fun _ => "1.0") none 1
      = (.ok ("Paused for " ++ "1.0" ++ (if (1 : ℚ) = 1 then " second." else " seconds.")),
         some 1)) ∧
    ((0 : ℚ) ≤ 3 ∧ pause_flow (fun _ => "3.0") none 3
      = (.ok ("Paused for " ++ "3.0" ++ (if (3 : ℚ) = 1 then " second." else " seconds.")),
         some 3)) :=
  ⟨⟨by norm_num, claim_C7_pause_message (fun _ => "1.0") 1 (by norm_num)⟩,
   ⟨by norm_num, claim_C7_pause_message (fun _ => "3.0") 3 (by norm_num)⟩⟩

/-- Claim C8: for every browser type other than chromium,
`create_browser_context` raises a ValueError naming the unsupported type
and makes no launch attempt. -/
theorem claim_C8_unsupported_browser (pw : Option PW) (browser_type : String)
    (isheadless : Bool) (launch : String → Bool → Except String Ctx)
    (user_dir new_user_dir : String) (h : browser_type ≠ "chromium") :
    create_browser_context pw browser_type isheadless launch user_dir new_user_dir
      = (.valueError ("Unsupported browser type: " ++ browser_type), []) := by
  simp [create_browser_context, h]

/-- Witness for C8 at browser type firefox. -/
theorem claim_C8_unsupported_browser_witness :
    "firefox" ≠ "chromium" ∧
    create_browser_context (some 1) "firefox" false launchOk "u" "t"
      = (.valueError ("Unsupported browser type: " ++ "firefox"), []) :=
  ⟨by decide, claim_C8_unsupported_browser (some 1) "firefox" false launchOk "u" "t" (by decide)⟩

/-- Claim C3: when the first persistent-context launch fails with the
closed-target message, the launch is retried exactly once with the fresh
temporary directory in place of the configured user directory, and the
result is that of the retry; when it fails with the missing-chrome
message, a ValueError with the install-chrome text is raised with no
retry; any other failure propagates unchanged with no retry. -/
theorem claim_C3_launch_retry (pw : PW) (isheadless : Bool)
    (launch : String → Bool → Except String Ctx) (user_dir new_user_dir e : String)
    (h : launch user_dir isheadless = .error e) :
    (strContains closedMsg e = true →
      create_browser_context (some pw) "chromium" isheadless launch user_dir new_user_dir
        = ((match launch new_user_dir isheadless with
            | .ok c => CBCOutcome.ok c
            | .error e2 => CBCOutcome.raised e2),
           [(user_dir, isheadless), (new_user_dir, isheadless)])) ∧
    (strContains closedMsg e = false → strContains chromeNotFoundMsg e = true →
      create_browser_context (some pw) "chromium" isheadless launch user_dir new_user_dir
        = (.valueError chromeInstallMsg, [(user_dir, isheadless)])) ∧
    (strContains closedMsg e = false → strContains chromeNotFoundMsg e = false →
      create_browser_context (some pw) "chromium" isheadless launch user_dir new_user_dir
        = (.raised e, [(user_dir, isheadless)])) := by
  refine ⟨?_, ?_, ?_⟩
  · intro h1
    rcases h2 : launch new_user_dir isheadless with c | e2 <;>
      simp [create_browser_context, h, h1, h2]
  · intro h1 h2
    simp [create_browser_context, h, h1, h2]
  · intro h1 h2
    simp [create_browser_context, h, h1, h2]

/-- Witness for C3: the first launch fails with the closed-target
message and the retry on the fresh directory succeeds. -/
theorem claim_C3_launch_retry_witness :
    launchEx "u" false = .error closedMsg ∧
    strContains closedMsg closedMsg = true ∧
    create_browser_context (some 1) "chromium" false launchEx "u" "t"
      = ((match launchEx "t" false with
          | .ok c => CBCOutcome.ok c
          | .error e2 => CBCOutcome.raised e2),
         [("u", false), ("t", false)]) :=
  ⟨rfl, by decide,
   (claim_C3_launch_retry 1 false launchEx "u" "t" closedMsg rfl).1 (by decide)⟩

/-- Claim C9: a negative duration makes `pause_flow` raise the
negative-duration ValueError without sleeping; provided the sleep itself
does not raise a ValueError mentioning negative, that error is raised
exactly for negative durations; and every exception raised by the sleep
is rethrown as a ValueError. -/
theorem claim_C9_negative_duration (fmt : ℚ → String) (sleepExc : Option PyExc) (d : ℚ) :
    (d < 0 → pause_flow fmt sleepExc d
      = (.error (.valueError "Duration cannot be negative."), none)) ∧
    ((∀ m, sleepExc = some (.valueError m) → strContains "negative" m = false) →
      ((pause_flow fmt sleepExc d).1
          = .error (.valueError "Duration cannot be negative.") ↔ d < 0)) ∧
    (0 ≤ d → ∀ e, sleepExc = some e →
      ∃ m, pause_flow fmt sleepExc d = (.error (.valueError m), some d)) := by
  have hpart1 : d < 0 → pause_flow fmt sleepExc d
      = (.error (.valueError "Duration cannot be negative."), none) := by
    intro hneg
    simp [pause_flow, hneg, wrapPauseExc, negMsg_contains]
  refine ⟨hpart1, ?_, ?_⟩
  · intro hs
    constructor
    · intro hres
      by_contra hnn
      push_neg at hnn
      rcases he : sleepExc with _ | e
      · subst he
        have hred : pause_flow fmt none d
            = (.ok (if d = 1 then "Paused for " ++ fmt d ++ " second."
                    else "Paused for " ++ fmt d ++ " seconds."), some d) := by
          unfold pause_flow
          rw [if_neg (not_lt.mpr hnn)]
          by_cases h1 : d = 1 <;> simp [h1]
        rw [hred] at hres
        simp at hres
      · rcases e with m | m
        · have hm := hs m he
          subst he
          simp [pause_flow, not_lt.mpr hnn, wrapPauseExc, hm] at hres
        · subst he
          simp [pause_flow, not_lt.mpr hnn, wrapPauseExc] at hres
          exact errorWhileMsg_ne m hres
    · intro hd
      rw [hpart1 hd]
  · intro hd e he
    subst he
    rcases e with m | m
    · by_cases hm : strContains "negative" m
      · exact ⟨"Duration cannot be negative.",
          by simp [pause_flow, not_lt.mpr hd, wrapPauseExc, hm]⟩
      · exact ⟨"Invalid duration. Please provide a valid number of seconds.",
          by simp [pause_flow, not_lt.mpr hd, wrapPauseExc, hm]⟩
    · exact ⟨"Error while pausing: " ++ m,
        by simp [pause_flow, not_lt.mpr hd, wrapPauseExc]⟩

/-- Witness for C9: duration -2 raises without sleeping; with a
well-behaved sleep the error characterizes negativity; a failing sleep at
duration 2 is rethrown as a ValueError. -/
theorem claim_C9_negative_duration_witness :
    ((-2 : ℚ) < 0 ∧ pause_flow (fun _ => "-2.0") none (-2)
      = (.error (.valueError "Duration cannot be negative."), none)) ∧
    ((pause_flow (fun _ => "-2.0") none (-2)).1
        = .error (.valueError "Duration cannot be negative.") ↔ (-2 : ℚ) < 0) ∧
    ((0 : ℚ) ≤ 2 ∧
      ∃ m, pause_flow (fun _ => "2.0") (some (.other "loop closed")) 2
        = (.error (.valueError m), some 2)) :=
  ⟨⟨by norm_num,
    (claim_C9_negative_duration (fun _ => "-2.0") none (-2)).1 (by norm_num)⟩,
   (claim_C9_negative_duration (fun _ => "-2.0") none (-2)).2.1 (fun m hm => by simp at hm),
   ⟨by norm_num,
    (claim_C9_negative_duration (fun _ => "2.0") (some (.other "loop closed")) 2).2.2
      (by norm_num) (.other "loop closed") rfl⟩⟩

/-- Claim C10: `get_current_url` is a total function of the outcome of
obtaining the current page: it returns the URL of the page on success and
`none` on failure, never propagating the exception. -/
theorem claim_C10_current_url_total (fetch : Except String PageM) :
    (∀ p, fetch = .ok p → get_current_url fetch = some p.url) ∧
    (∀ e, fetch = .error e → get_current_url fetch = none) := by
  constructor <;> intro x h <;> subst h <;> rfl

/-- Witness for C10 on a concrete page and a concrete failure. -/
theorem claim_C10_current_url_total_witness :
    get_current_url (.ok pageEx) = some pageEx.url ∧
    get_current_url (.error "browser context closed") = none :=
  ⟨(claim_C10_current_url_total (.ok pageEx)).1 pageEx rfl,
   (claim_C10_current_url_total (.error "browser context closed")).2
     "browser context closed" rfl⟩

end AgentE
